import Mathlib

/-!
Verification of the bucket-size aggregation and time-series pipeline
(`lambda_handler_size.py` and `lambda_handler_plot.py`) against its
natural-language specification.

The Python handlers are embedded shallowly:

* S3 `list_objects_v2` pagination is a `List` of pages, each page the
  `Contents` list of `(key, size)` entries.
* The DynamoDB table `S3-object-size-history` is a `List` of rows keyed by
  the pair `(S3ObjectKey, Timestamp)`; `put_item` follows DynamoDB
  semantics: it creates a new item, or completely replaces an existing item
  that has the same primary key.
* Exceptions (`ClientError`, `KeyError`/`IndexError` from the event
  access) are modelled with `Except`; a handler that re-raises returns
  `.error`, and the effects it performed (rows written, uploads made) are
  recorded explicitly in its outcome.
-/

namespace AWSProject

/-- One entry of a `list_objects_v2` page (`Contents` element): object key
and `Size` in bytes. -/
structure S3Object where
  key : String
  size : Nat
deriving DecidableEq, Repr

/-- One page of a `list_objects_v2` pagination: the `Contents` list
(possibly empty, as `page.get('Contents', [])` in the source). -/
abbrev ListPage := List S3Object

/-- The inner loop of `calculate_total_size` over one page:
`total_size += obj['Size']; object_count += 1` for each entry, with the
accumulator `(total_size, object_count)`. -/
def page_step (acc : Nat × Nat) (page : ListPage) : Nat × Nat :=
  page.foldl (fun a obj => (a.1 + obj.size, a.2 + 1)) acc

/-- `calculate_total_size` of `lambda_handler_size.py`: iterate over all
pages of the paginator, accumulating size and count; returns
`(total_size, object_count)`. -/
def calculate_total_size (pages : List ListPage) : Nat × Nat :=
  pages.foldl page_step (0, 0)

/-- A row of the DynamoDB table `S3-object-size-history`, as written by
`write_to_dynamodb`: partition key `S3ObjectKey` (the bucket name), sort
key `Timestamp`, plus the two aggregate attributes. -/
structure SnapshotItem where
  s3ObjectKey : String
  timestamp : Nat
  object_count : Nat
  total_size : Nat
deriving DecidableEq, Repr

/-- DynamoDB `put_item`: creates a new item, or completely replaces an
existing item with the same primary key `(S3ObjectKey, Timestamp)`
(per the DynamoDB `PutItem` API contract). -/
def put_item (table : List SnapshotItem) (item : SnapshotItem) : List SnapshotItem :=
  table.filter
    (fun r => !(r.s3ObjectKey = item.s3ObjectKey && r.timestamp = item.timestamp)) ++ [item]

/-- The errors the handlers observe: `botocore` `ClientError` from an AWS
call, or a `KeyError`/`IndexError` from subscripting the event payload. -/
inductive AwsError where
  | clientError (msg : String)
  | keyError (msg : String)
deriving DecidableEq, Repr

/-- One record of the triggering S3 event. `bucketName = some n` models a
record whose `['s3']['bucket']['name']` path is present with value `n`;
`none` models a record lacking that structure (subscripting raises). -/
structure S3EventRecord where
  bucketName : Option String
deriving DecidableEq, Repr

/-- The triggering event: its `Records` list. -/
structure S3Event where
  records : List S3EventRecord
deriving DecidableEq, Repr

/-- The subscript chain `event['Records'][0]['s3']['bucket']['name']` of
`lambda_handler` in `lambda_handler_size.py`: returns the first record's
bucket name, or the `KeyError`/`IndexError` the subscripting raises. -/
def extract_bucket_name (event : S3Event) : Except AwsError String :=
  match event.records.head? with
  | none => .error (.keyError "Records[0]")
  | some r =>
    match r.bucketName with
    | none => .error (.keyError "s3.bucket.name")
    | some n => .ok n

/-- Environment of one Aggregator invocation: per-bucket outcome of the S3
listing (the pages, or the `ClientError` the paginator raises), the value
`int(datetime.utcnow().timestamp())` captured after the listing, and
whether the DynamoDB `put_item` call raises `ClientError`. -/
structure SizeEnv where
  listing : String → Except AwsError (List ListPage)
  now : Nat
  writeFails : Bool

/-- Observable outcome of one Aggregator invocation: the result (`.error`
means the handler re-raised), the `put_item` calls that took effect, and
the DynamoDB table contents afterward. -/
structure SizeOutcome where
  result : Except AwsError Unit
  writes : List SnapshotItem
  table : List SnapshotItem
deriving Repr

/-- `lambda_handler` of `lambda_handler_size.py`: extract the bucket name
from `Records[0]`, compute `(total_size, object_count)` by
`calculate_total_size`, capture the timestamp, and write one row via
`write_to_dynamodb`. Every exception is logged and re-raised, so any
failure leaves the table untouched (a failed `put_item` writes nothing:
the single-item write is atomic). -/
def size_lambda_handler (env : SizeEnv) (event : S3Event)
    (table : List SnapshotItem) : SizeOutcome :=
  match extract_bucket_name event with
  | .error e => ⟨.error e, [], table⟩
  | .ok bucket_name =>
    match env.listing bucket_name with
    | .error e => ⟨.error e, [], table⟩
    | .ok pages =>
      let ts := calculate_total_size pages
      let item : SnapshotItem := ⟨bucket_name, env.now, ts.2, ts.1⟩
      if env.writeFails then ⟨.error (.clientError "put_item"), [], table⟩
      else ⟨.ok (), [item], put_item table item⟩

/-- Comparison used by `items.sort(key=lambda x: x['Timestamp'])` in
`fetch_dynamodb_items`: order by the sort key `Timestamp`. -/
def snapshotLE (a b : SnapshotItem) : Prop := a.timestamp ≤ b.timestamp

instance : DecidableRel snapshotLE := fun a b => Nat.decLe a.timestamp b.timestamp

instance : IsTotal SnapshotItem snapshotLE := ⟨fun a b => Nat.le_total a.timestamp b.timestamp⟩

instance : IsTrans SnapshotItem snapshotLE := ⟨fun _ _ _ => Nat.le_trans⟩

/-- `fetch_dynamodb_items` of `lambda_handler_plot.py`, given the pages of
the DynamoDB `scan` pagination (`items = response['Items']`, then `extend`
while `LastEvaluatedKey` is present): accumulate every page, then sort the
whole list by `Timestamp`. The scan is over the entire table — no filter
expression and no key condition is passed, so rows of every partition key
are returned. -/
def fetch_dynamodb_items (pages : List (List SnapshotItem)) : List SnapshotItem :=
  List.insertionSort snapshotLE (pages.foldl (· ++ ·) [])

/-- The bucket constant `S3_BUCKET_NAME` of `lambda_handler_plot.py`. -/
def S3_BUCKET_NAME : String := "lecture2-yaqundeng"

/-- The artifact key constant `PLOT_KEY` of `lambda_handler_plot.py`. -/
def PLOT_KEY : String := "plot.png"

/-- The locator built by `generate_plot`:
`f"s3://\x7bS3_BUCKET_NAME\x7d/\x7bPLOT_KEY\x7d"`. -/
def plot_url : String := "s3://" ++ S3_BUCKET_NAME ++ "/" ++ PLOT_KEY

/-- The data content of the rendered chart: `generate_plot` extracts
`timestamps = [item['Timestamp'] ...]` and
`total_sizes = [item['total_size'] ...]` and plots them pairwise in the
given order. The rasterization itself is matplotlib; the
correctness-relevant content is this ordered point sequence. -/
def chart_points (items : List SnapshotItem) : List (Nat × Nat) :=
  items.map (fun item => (item.timestamp, item.total_size))

/-- An HTTP-style Lambda response `{'statusCode': ..., 'body': ...}`. -/
structure LambdaResponse where
  statusCode : Nat
  body : String
deriving DecidableEq, Repr

/-- The 404 response for an empty table:
`'No data found in DynamoDB table'` (a plain string body). -/
def no_data_response : LambdaResponse :=
  ⟨404, "No data found in DynamoDB table"⟩

/-- The 500 response of both `except` branches:
`json.dumps('Internal Server Error')` (note the JSON string quotes). -/
def internal_error_response : LambdaResponse :=
  ⟨500, "\"Internal Server Error\""⟩

/-- The 200 response: `json.dumps({'plot_url': plot_url})`. -/
def success_response : LambdaResponse :=
  ⟨200, "\x7b\"plot_url\": \"" ++ plot_url ++ "\"\x7d"⟩

/-- Environment of one ReportHandler invocation: the outcome of the
DynamoDB scan (its pages, or the `ClientError` it raises), whether the
matplotlib rendering raises, and whether the S3 `put_object` raises
`ClientError`. -/
structure PlotEnv where
  scan : Except AwsError (List (List SnapshotItem))
  renderFails : Bool
  uploadFails : Bool

/-- Observable outcome of one ReportHandler invocation: the response, how
many times rendering and upload were attempted, and the `put_object` calls
that took effect, each as `(bucket, key, chart data)`. -/
structure PlotOutcome where
  response : LambdaResponse
  renderAttempts : Nat
  uploadAttempts : Nat
  uploads : List (String × String × List (Nat × Nat))
deriving DecidableEq, Repr

/-- `lambda_handler` of `lambda_handler_plot.py`: fetch all items; if the
list is falsy return the 404 no-data response; otherwise `generate_plot`
renders the chart and `upload_plot_to_s3` issues
`put_object(Bucket=S3_BUCKET_NAME, Key=PLOT_KEY, ...)`, and the 200
response carries the plot URL. Every `ClientError` and every other
exception is caught and mapped to the same 500 response; each stage runs
in straight-line code, at most once. -/
def plot_lambda_handler (env : PlotEnv) : PlotOutcome :=
  match env.scan with
  | .error _ => ⟨internal_error_response, 0, 0, []⟩
  | .ok pages =>
    let items := fetch_dynamodb_items pages
    if items.isEmpty then ⟨no_data_response, 0, 0, []⟩
    else if env.renderFails then ⟨internal_error_response, 1, 0, []⟩
    else if env.uploadFails then ⟨internal_error_response, 1, 1, []⟩
    else ⟨success_response, 1, 1, [(S3_BUCKET_NAME, PLOT_KEY, chart_points items)]⟩

/-- S3 `put_object` on a keyed object store, modelled as a `(key, body)`
association list: a put completely replaces any object at the same key. -/
def s3_put_object (store : List (String × List (Nat × Nat))) (key : String)
    (body : List (Nat × Nat)) : List (String × List (Nat × Nat)) :=
  store.filter (fun kv => kv.1 ≠ key) ++ [(key, body)]

/-- Apply the uploads an invocation performed to a prior object-store
state, in order. -/
def apply_uploads (store : List (String × List (Nat × Nat)))
    (uploads : List (String × String × List (Nat × Nat))) :
    List (String × List (Nat × Nat)) :=
  uploads.foldl (fun s u => s3_put_object s u.2.1 u.2.2) store

/-- `true` exactly when some stage of the pipeline fails: the scan raises,
or data is non-empty and rendering or upload raises. (A render/upload
fault with an empty table is unreachable: the handler returns 404 before
either stage.) -/
def stage_failure (env : PlotEnv) : Bool :=
  match env.scan with
  | .error _ => true
  | .ok pages =>
    !(fetch_dynamodb_items pages).isEmpty && (env.renderFails || env.uploadFails)

end AWSProject

namespace AWSProject

/- Helper lemmas about `calculate_total_size`. -/

theorem page_step_eq (page : ListPage) (a b : Nat) :
    page_step (a, b) page = (a + (page.map S3Object.size).sum, b + page.length) := by
  induction page generalizing a b with
  | nil => simp [page_step]
  | cons o os ih =>
    simp only [page_step, List.foldl_cons] at *
    rw [ih]
    simp [Nat.add_assoc, Nat.add_comm 1]

theorem calculate_total_size_eq_aux (pages : List ListPage) (a b : Nat) :
    pages.foldl page_step (a, b) =
      (a + (pages.flatten.map S3Object.size).sum, b + pages.flatten.length) := by
  induction pages generalizing a b with
  | nil => simp
  | cons p ps ih =>
    simp only [List.foldl_cons]
    rw [page_step_eq, ih]
    simp [Nat.add_assoc]

/-- C1: however a bucket listing of entries with sizes `s_1..s_N` is split
across pages (including zero entries and empty pages),
`calculate_total_size` returns `total_size = s_1 + ... + s_N` and
`object_count = N` — the result depends only on the flattened entry
sequence, so any two paginations of the same entries agree, and an empty
bucket yields the valid snapshot `(0, 0)`. -/
theorem calculate_total_size_correct (pages : List ListPage) :
    calculate_total_size pages =
      ((pages.flatten.map S3Object.size).sum, pages.flatten.length) := by
  simpa using calculate_total_size_eq_aux pages 0 0

/- Helper lemmas about `fetch_dynamodb_items`. -/

theorem foldl_append_eq_flatten {α : Type} (l : List (List α)) (acc : List α) :
    l.foldl (· ++ ·) acc = acc ++ l.flatten := by
  induction l generalizing acc with
  | nil => simp
  | cons p ps ih => simp [List.foldl_cons, ih]

theorem fetch_eq_sort_flatten (pages : List (List SnapshotItem)) :
    fetch_dynamodb_items pages = List.insertionSort snapshotLE pages.flatten := by
  unfold fetch_dynamodb_items
  rw [foldl_append_eq_flatten]
  simp

/-- C2 counterexample: a scan whose single page holds a row of bucket
`"a"` and a row of bucket `"b"`; a fetch on behalf of bucket `"a"` still
returns the `"b"` row, so the result is not restricted to the requested
partition key. -/
theorem fetch_not_filtered_counterexample :
    ¬ (∀ r ∈ fetch_dynamodb_items
        [[⟨"a", 1, 0, 0⟩, ⟨"b", 2, 0, 0⟩]], r.s3ObjectKey = "a") := by
  decide

/-- C2 (amended): `fetch_dynamodb_items` performs a full-table scan with
no partition filter: whatever `bucket_id` the report is for, the returned
sequence contains exactly the rows of all pages of the scan — rows of
every bucket in the store — after exhausting all pages. -/
theorem fetch_returns_full_table (pages : List (List SnapshotItem))
    (r : SnapshotItem) :
    r ∈ fetch_dynamodb_items pages ↔ r ∈ pages.flatten := by
  rw [fetch_eq_sort_flatten]
  exact (List.perm_insertionSort snapshotLE pages.flatten).mem_iff

/-- C3: for every split of the stored items across scan pages, in any
order, `fetch_dynamodb_items` returns a permutation of all items of all
pages (nothing lost, nothing added), ordered non-decreasing by
`Timestamp`. -/
theorem fetch_sorted_and_complete (pages : List (List SnapshotItem)) :
    List.Perm (fetch_dynamodb_items pages) pages.flatten ∧
    List.Sorted snapshotLE (fetch_dynamodb_items pages) := by
  rw [fetch_eq_sort_flatten]
  exact ⟨List.perm_insertionSort snapshotLE pages.flatten,
    List.sorted_insertionSort snapshotLE pages.flatten⟩

/-- C4: whenever the scan succeeds and the fetched series is empty, the
ReportHandler returns the 404 no-data response — distinct from the 500
error response — and performs no render attempt, no upload attempt and no
`put_object` call. -/
theorem report_handler_no_data (env : PlotEnv) (pages : List (List SnapshotItem))
    (hscan : env.scan = .ok pages)
    (hempty : fetch_dynamodb_items pages = []) :
    (plot_lambda_handler env).response = no_data_response ∧
    (plot_lambda_handler env).renderAttempts = 0 ∧
    (plot_lambda_handler env).uploadAttempts = 0 ∧
    (plot_lambda_handler env).uploads = [] ∧
    no_data_response ≠ internal_error_response := by
  refine ⟨?_, ?_, ?_, ?_, by decide⟩ <;>
    simp [plot_lambda_handler, hscan, hempty]

theorem report_handler_no_data_witness :
    (plot_lambda_handler ⟨.ok [], false, false⟩).response = no_data_response ∧
    (plot_lambda_handler ⟨.ok [], false, false⟩).renderAttempts = 0 ∧
    (plot_lambda_handler ⟨.ok [], false, false⟩).uploadAttempts = 0 ∧
    (plot_lambda_handler ⟨.ok [], false, false⟩).uploads = [] ∧
    no_data_response ≠ internal_error_response :=
  report_handler_no_data ⟨.ok [], false, false⟩ [] rfl rfl

/-- C5: the Aggregator invocation is all-or-nothing. When the event names
a bucket: a listing failure surfaces that error with no write and an
unchanged table; a `put_item` failure after a successful listing surfaces
the error (re-raised, not swallowed) with no visible row; on success the
outcome is exactly one appended snapshot row carrying the computed
aggregates. -/
theorem aggregator_all_or_nothing (env : SizeEnv) (event : S3Event)
    (table : List SnapshotItem) (bucket : String)
    (hb : extract_bucket_name event = .ok bucket) :
    (∀ e : AwsError, env.listing bucket = .error e →
      size_lambda_handler env event table = ⟨.error e, [], table⟩) ∧
    (∀ pages : List ListPage, env.listing bucket = .ok pages →
      env.writeFails = true →
      size_lambda_handler env event table =
        ⟨.error (.clientError "put_item"), [], table⟩) ∧
    (∀ pages : List ListPage, env.listing bucket = .ok pages →
      env.writeFails = false →
      size_lambda_handler env event table =
        ⟨.ok (),
          [⟨bucket, env.now, (calculate_total_size pages).2, (calculate_total_size pages).1⟩],
          put_item table
            ⟨bucket, env.now, (calculate_total_size pages).2, (calculate_total_size pages).1⟩⟩) := by
  refine ⟨fun e he => ?_, fun pages hl hw => ?_, fun pages hl hw => ?_⟩ <;>
    simp [size_lambda_handler, hb, *]

theorem aggregator_all_or_nothing_witness :
    size_lambda_handler ⟨fun _ => .ok [[⟨"k", 100⟩, ⟨"k2", 50⟩]], 7, false⟩
        ⟨[⟨some "b"⟩]⟩ [] =
      ⟨.ok (),
        [⟨"b", 7, (calculate_total_size [[⟨"k", 100⟩, ⟨"k2", 50⟩]]).2,
            (calculate_total_size [[⟨"k", 100⟩, ⟨"k2", 50⟩]]).1⟩],
        put_item []
          ⟨"b", 7, (calculate_total_size [[⟨"k", 100⟩, ⟨"k2", 50⟩]]).2,
            (calculate_total_size [[⟨"k", 100⟩, ⟨"k2", 50⟩]]).1⟩⟩ :=
  (aggregator_all_or_nothing ⟨fun _ => .ok [[⟨"k", 100⟩, ⟨"k2", 50⟩]], 7, false⟩
      ⟨[⟨some "b"⟩]⟩ [] "b" rfl).2.2 [[⟨"k", 100⟩, ⟨"k2", 50⟩]] rfl rfl

/-- C6 counterexample: the table already holds the row
`(bucket "b", timestamp 5, count 1, size 100)`; a successful Aggregator
run for bucket `"b"` at the same second (listing two objects of sizes 50
and 100) appends its snapshot with the same `(S3ObjectKey, Timestamp)`
key, and the prior row is no longer present afterward — `put_item`
replaced it, so the two same-second snapshots do not both persist. -/
theorem append_overwrites_same_key_counterexample :
    (⟨"b", 5, 1, 100⟩ : SnapshotItem) ∈ ([⟨"b", 5, 1, 100⟩] : List SnapshotItem) ∧
    (size_lambda_handler ⟨fun _ => .ok [[⟨"k", 50⟩, ⟨"k2", 100⟩]], 5, false⟩
        ⟨[⟨some "b"⟩]⟩ [⟨"b", 5, 1, 100⟩]).result = .ok () ∧
    (⟨"b", 5, 1, 100⟩ : SnapshotItem) ∉
      (size_lambda_handler ⟨fun _ => .ok [[⟨"k", 50⟩, ⟨"k2", 100⟩]], 5, false⟩
        ⟨[⟨some "b"⟩]⟩ [⟨"b", 5, 1, 100⟩]).table :=
  ⟨by decide, rfl, by decide⟩

/-- C6 (amended): a successful Aggregator append never updates or deletes
any existing row with a different `(bucket_id, timestamp)` key — every
such prior row is still present unchanged, and the new snapshot is
present; an append whose key equals an existing row's key instead
replaces that row (DynamoDB `put_item` semantics), so same-second
duplicates overwrite rather than coexist. -/
theorem append_preserves_other_rows (env : SizeEnv) (event : S3Event)
    (table : List SnapshotItem) (bucket : String) (pages : List ListPage)
    (hb : extract_bucket_name event = .ok bucket)
    (hl : env.listing bucket = .ok pages)
    (hw : env.writeFails = false) :
    (∀ r ∈ table, (r.s3ObjectKey ≠ bucket ∨ r.timestamp ≠ env.now) →
      r ∈ (size_lambda_handler env event table).table) ∧
    (⟨bucket, env.now, (calculate_total_size pages).2,
        (calculate_total_size pages).1⟩ : SnapshotItem) ∈
      (size_lambda_handler env event table).table := by
  have htab : (size_lambda_handler env event table).table =
      put_item table
        ⟨bucket, env.now, (calculate_total_size pages).2, (calculate_total_size pages).1⟩ := by
    simp [size_lambda_handler, hb, hl, hw]
  rw [htab]
  constructor
  · intro r hr hne
    rcases hne with h | h <;> simp [put_item, List.mem_filter, hr, h]
  · simp [put_item]

theorem append_preserves_other_rows_witness :
    ((∀ r ∈ ([⟨"c", 3, 2, 7⟩] : List SnapshotItem),
      (r.s3ObjectKey ≠ "b" ∨ r.timestamp ≠ (5 : Nat)) →
      r ∈ (size_lambda_handler ⟨fun _ => .ok [[⟨"k", 50⟩]], 5, false⟩
        ⟨[⟨some "b"⟩]⟩ [⟨"c", 3, 2, 7⟩]).table) ∧
    (⟨"b", 5, (calculate_total_size [[⟨"k", 50⟩]]).2,
        (calculate_total_size [[⟨"k", 50⟩]]).1⟩ : SnapshotItem) ∈
      (size_lambda_handler ⟨fun _ => .ok [[⟨"k", 50⟩]], 5, false⟩
        ⟨[⟨some "b"⟩]⟩ [⟨"c", 3, 2, 7⟩]).table) :=
  append_preserves_other_rows ⟨fun _ => .ok [[⟨"k", 50⟩]], 5, false⟩
    ⟨[⟨some "b"⟩]⟩ [⟨"c", 3, 2, 7⟩] "b" [[⟨"k", 50⟩]] rfl rfl rfl

/-- C7 counterexample: a rendering failure on a non-empty series and a
storage (scan) failure produce the very same observable response
`(500, json 'Internal Server Error')`, while the no-data result is 404 —
the three outcomes map to only two distinct observable results, so the
caller cannot distinguish a render failure from a storage error. -/
theorem render_error_indistinct_counterexample :
    (plot_lambda_handler ⟨.ok [[⟨"b", 1, 1, 100⟩]], true, false⟩).response =
      (plot_lambda_handler ⟨.error (.clientError "scan"), false, false⟩).response ∧
    (plot_lambda_handler ⟨.ok [[⟨"b", 1, 1, 100⟩]], true, false⟩).response ≠
      no_data_response := by
  constructor
  · rfl
  · decide

/-- C7 (amended): every internal rendering failure on a non-empty series
surfaces as the internal-error (500) response, which is distinguishable
from the no-data (404) result but identical to the response produced by a
storage (scan) failure — render and storage failures are not mutually
distinguishable by the caller. -/
theorem render_failure_maps_to_internal_error (env : PlotEnv)
    (pages : List (List SnapshotItem))
    (hscan : env.scan = .ok pages)
    (hne : (fetch_dynamodb_items pages).isEmpty = false)
    (hr : env.renderFails = true) :
    (plot_lambda_handler env).response = internal_error_response ∧
    internal_error_response ≠ no_data_response ∧
    (∀ (e : AwsError) (rf uf : Bool),
      (plot_lambda_handler ⟨.error e, rf, uf⟩).response = internal_error_response) := by
  refine ⟨?_, by decide, fun e rf uf => rfl⟩
  simp [plot_lambda_handler, hscan, hne, hr]

theorem render_failure_maps_to_internal_error_witness :
    (plot_lambda_handler ⟨.ok [[⟨"b", 1, 1, 100⟩]], true, false⟩).response =
      internal_error_response ∧
    internal_error_response ≠ no_data_response ∧
    (∀ (e : AwsError) (rf uf : Bool),
      (plot_lambda_handler ⟨.error e, rf, uf⟩).response = internal_error_response) :=
  render_failure_maps_to_internal_error ⟨.ok [[⟨"b", 1, 1, 100⟩]], true, false⟩
    [[⟨"b", 1, 1, 100⟩]] rfl rfl rfl

/-- C8: whenever any stage of the pipeline fails (scan raises, or the
series is non-empty and rendering or upload raises), the handler returns
the 500 internal-error response — a value, not a propagated exception (the
handler is total) — and no stage is retried: rendering and upload are each
attempted at most once in the invocation. -/
theorem report_handler_failure_maps_to_500 (env : PlotEnv)
    (h : stage_failure env = true) :
    (plot_lambda_handler env).response = internal_error_response ∧
    (plot_lambda_handler env).renderAttempts ≤ 1 ∧
    (plot_lambda_handler env).uploadAttempts ≤ 1 := by
  unfold stage_failure at h
  cases hscan : env.scan with
  | error e => simp [plot_lambda_handler, hscan]
  | ok pages =>
    rw [hscan] at h
    rw [Bool.and_eq_true] at h
    obtain ⟨h1, h2⟩ := h
    rw [Bool.not_eq_true'] at h1
    cases hrf : env.renderFails with
    | true => simp [plot_lambda_handler, hscan, h1, hrf]
    | false =>
      rw [hrf] at h2
      simp only [Bool.false_or] at h2
      simp [plot_lambda_handler, hscan, h1, hrf, h2]

theorem report_handler_failure_maps_to_500_witness :
    (plot_lambda_handler ⟨.error (.clientError "scan"), false, false⟩).response =
      internal_error_response ∧
    (plot_lambda_handler ⟨.error (.clientError "scan"), false, false⟩).renderAttempts ≤ 1 ∧
    (plot_lambda_handler ⟨.error (.clientError "scan"), false, false⟩).uploadAttempts ≤ 1 :=
  report_handler_failure_maps_to_500 ⟨.error (.clientError "scan"), false, false⟩ rfl

/- Helper lemmas about the object store. -/

theorem lookup_append_of_forall_ne (l : List (String × List (Nat × Nat)))
    (key : String) (body : List (Nat × Nat))
    (h : ∀ kv ∈ l, kv.1 ≠ key) :
    (l ++ [(key, body)]).lookup key = some body := by
  induction l with
  | nil => simp [List.lookup]
  | cons kv t ih =>
    have hne : kv.1 ≠ key := h kv (List.mem_cons_self kv t)
    have hbeq : (key == kv.1) = false := beq_eq_false_iff_ne.mpr fun hh => hne hh.symm
    simp only [List.cons_append, List.lookup, hbeq]
    exact ih fun x hx => h x (List.mem_cons_of_mem kv hx)

theorem lookup_s3_put_object (store : List (String × List (Nat × Nat)))
    (key : String) (body : List (Nat × Nat)) :
    (s3_put_object store key body).lookup key = some body := by
  unfold s3_put_object
  refine lookup_append_of_forall_ne _ key body fun kv hkv => ?_
  have := List.of_mem_filter hkv
  simpa using this

/-- C9: on every successful invocation with a non-empty series, the
handler performs exactly one `put_object`, to the fixed bucket and the
fixed key `plot.png` (constants, so the key never varies across
invocations, and the put replaces whatever object any prior state held at
that key), and the 200 response's locator is exactly the URL of that
fixed key. -/
theorem report_handler_success_fixed_key (env : PlotEnv)
    (pages : List (List SnapshotItem))
    (hscan : env.scan = .ok pages)
    (hne : (fetch_dynamodb_items pages).isEmpty = false)
    (hr : env.renderFails = false) (hu : env.uploadFails = false) :
    (plot_lambda_handler env).uploads =
      [(S3_BUCKET_NAME, PLOT_KEY, chart_points (fetch_dynamodb_items pages))] ∧
    (plot_lambda_handler env).response = success_response ∧
    success_response.body =
      "\x7b\"plot_url\": \"s3://" ++ S3_BUCKET_NAME ++ "/" ++ PLOT_KEY ++ "\"\x7d" ∧
    plot_url = "s3://" ++ S3_BUCKET_NAME ++ "/" ++ PLOT_KEY ∧
    (∀ store, (apply_uploads store (plot_lambda_handler env).uploads).lookup PLOT_KEY =
      some (chart_points (fetch_dynamodb_items pages))) := by
  have hup : (plot_lambda_handler env).uploads =
      [(S3_BUCKET_NAME, PLOT_KEY, chart_points (fetch_dynamodb_items pages))] := by
    simp [plot_lambda_handler, hscan, hne, hr, hu]
  refine ⟨hup, ?_, rfl, rfl, fun store => ?_⟩
  · simp [plot_lambda_handler, hscan, hne, hr, hu]
  · rw [hup]
    exact lookup_s3_put_object store PLOT_KEY (chart_points (fetch_dynamodb_items pages))

theorem report_handler_success_fixed_key_witness :
    (plot_lambda_handler ⟨.ok [[⟨"b", 1, 1, 100⟩]], false, false⟩).uploads =
      [(S3_BUCKET_NAME, PLOT_KEY,
        chart_points (fetch_dynamodb_items [[⟨"b", 1, 1, 100⟩]]))] ∧
    (plot_lambda_handler ⟨.ok [[⟨"b", 1, 1, 100⟩]], false, false⟩).response =
      success_response ∧
    success_response.body =
      "\x7b\"plot_url\": \"s3://" ++ S3_BUCKET_NAME ++ "/" ++ PLOT_KEY ++ "\"\x7d" ∧
    plot_url = "s3://" ++ S3_BUCKET_NAME ++ "/" ++ PLOT_KEY ∧
    (∀ store, (apply_uploads store
        (plot_lambda_handler ⟨.ok [[⟨"b", 1, 1, 100⟩]], false, false⟩).uploads).lookup PLOT_KEY =
      some (chart_points (fetch_dynamodb_items [[⟨"b", 1, 1, 100⟩]]))) :=
  report_handler_success_fixed_key ⟨.ok [[⟨"b", 1, 1, 100⟩]], false, false⟩
    [[⟨"b", 1, 1, 100⟩]] rfl rfl rfl rfl

/-- C10: the Aggregator consumes only `Records[0]`'s bucket name: the
outcome is identical whatever the later records are; every row written in
one invocation belongs to the extracted first-record bucket, and at most
one row is written; and when the `Records[0].s3.bucket.name` access
raises, the handler surfaces that error having written nothing, leaving
the table unchanged. -/
theorem aggregator_first_record_only (env : SizeEnv) (table : List SnapshotItem) :
    (∀ (r : S3EventRecord) (rest rest' : List S3EventRecord),
      size_lambda_handler env ⟨r :: rest⟩ table =
        size_lambda_handler env ⟨r :: rest'⟩ table) ∧
    (∀ (event : S3Event) (b : String), extract_bucket_name event = .ok b →
      ∀ w ∈ (size_lambda_handler env event table).writes, w.s3ObjectKey = b) ∧
    (∀ event : S3Event, (size_lambda_handler env event table).writes.length ≤ 1) ∧
    (∀ (event : S3Event) (e : AwsError), extract_bucket_name event = .error e →
      (size_lambda_handler env event table).result = .error e ∧
      (size_lambda_handler env event table).writes = [] ∧
      (size_lambda_handler env event table).table = table) := by
  refine ⟨fun r rest rest' => rfl, fun event b hb w hw => ?_, fun event => ?_,
    fun event e he => ?_⟩
  · rcases hl : env.listing b with e | pages
    · simp [size_lambda_handler, hb, hl] at hw
    · rcases hwf : env.writeFails with _ | _
      · simp [size_lambda_handler, hb, hl, hwf] at hw
        subst hw
        rfl
      · simp [size_lambda_handler, hb, hl, hwf] at hw
  · rcases hb : extract_bucket_name event with e | b
    · simp [size_lambda_handler, hb]
    · rcases hl : env.listing b with e | pages
      · simp [size_lambda_handler, hb, hl]
      · rcases hwf : env.writeFails with _ | _ <;>
          simp [size_lambda_handler, hb, hl, hwf]
  · refine ⟨?_, ?_, ?_⟩ <;> simp [size_lambda_handler, he]

theorem aggregator_first_record_only_witness :
    (size_lambda_handler ⟨fun _ => .ok [], 7, false⟩ ⟨[⟨none⟩]⟩ []).result =
      .error (.keyError "s3.bucket.name") ∧
    (size_lambda_handler ⟨fun _ => .ok [], 7, false⟩ ⟨[⟨none⟩]⟩ []).writes = [] ∧
    (size_lambda_handler ⟨fun _ => .ok [], 7, false⟩ ⟨[⟨none⟩]⟩ []).table = [] :=
  (aggregator_first_record_only ⟨fun _ => .ok [], 7, false⟩ []).2.2.2
    ⟨[⟨none⟩]⟩ (.keyError "s3.bucket.name") rfl

end AWSProject
